import Mathlib

/-!
# Cal-Building-Insights: verification of the filter / aggregation / export core

Shallow embedding of the pure core of `src/index.tsx` (a California public
buildings energy dashboard).  JavaScript numbers are modelled as rationals
(`ℚ`); the `Infinity` upper bounds used by range filters are modelled by an
explicit extended-number type `JVal`.  DOM / chart side effects are dropped;
each handler becomes a pure state-transformation function, and user
notifications become explicit return values where a claim refers to them.
-/

/-- A JavaScript number that may be `Infinity` (used for range upper bounds
in `FilterState`: `energyRange`/`gfaRange` are initialised to `[0, Infinity]`). -/
inductive JVal where
  | num (q : ℚ)
  | inf
deriving DecidableEq, Repr

namespace JVal

/-- JS comparison `q > v` for a finite number `q` against a bound `v`
(`q > Infinity` is always false). -/
def numGt (q : ℚ) : JVal → Bool
  | num b => decide (b < q)
  | inf => false

/-- JS comparison `q <= v` (`q <= Infinity` is always true). -/
def numLe (q : ℚ) : JVal → Bool
  | num b => decide (q ≤ b)
  | inf => true

theorem numGt_eq_false_iff (q : ℚ) (v : JVal) : numGt q v = false ↔ numLe q v = true := by
  cases v <;> simp [numGt, numLe]

end JVal

/-- One normalized building record (`interface BuildingData` in `src/index.tsx`).
Numeric fields are rationals: `getNumericValue` guarantees they are finite
(missing / unparsable values coerce to `0`). -/
structure BuildingData where
  department : String
  departmentName : String
  propertyId : String
  propertyName : String
  yearEnding : String
  address1 : String
  city : String
  stateProvince : String
  postalCode : String
  propertyGFA : ℚ
  primaryPropertyType : String
  yearBuilt : ℚ
  electricityRenewableUsedOnsite : ℚ
  electricityGridPurchase : ℚ
  naturalGasUseTherms : ℚ
  propaneUseKbtu : ℚ
  waterUseKgal : ℚ
  percentGreenPower : ℚ
  greenPowerKWh : ℚ
  siteEnergyUseKbtu : ℚ
  leedCertified : String
  location : String
  totalElectricityUseKWh : ℚ
  elecUsedPerSqrFt : ℚ
  siteEnergyUsedPerSqrFt : ℚ
  waterUsedPerSqrFt : ℚ
  hasRenewable : ℚ
deriving DecidableEq, Repr

/-- A building record with every string empty and every number `0` — the record
`fetchDataAndParse` would produce from an input object with no known fields. -/
def emptyRecord : BuildingData where
  department := ""
  departmentName := ""
  propertyId := ""
  propertyName := ""
  yearEnding := ""
  address1 := ""
  city := ""
  stateProvince := ""
  postalCode := ""
  propertyGFA := 0
  primaryPropertyType := ""
  yearBuilt := 0
  electricityRenewableUsedOnsite := 0
  electricityGridPurchase := 0
  naturalGasUseTherms := 0
  propaneUseKbtu := 0
  waterUseKgal := 0
  percentGreenPower := 0
  greenPowerKWh := 0
  siteEnergyUseKbtu := 0
  leedCertified := ""
  location := ""
  totalElectricityUseKWh := 0
  elecUsedPerSqrFt := 0
  siteEnergyUsedPerSqrFt := 0
  waterUsedPerSqrFt := 0
  hasRenewable := 0

/-- The mutable filter state (`interface FilterState`).  `leedCertified` and
`selectedCity` are `string | null` in the source (`Option String` here), and
the upper bounds of `energyRange`/`gfaRange` can be `Infinity` (`JVal.inf`). -/
structure FilterState where
  departments : List String
  propertyTypes : List String
  yearRange : ℚ × ℚ
  energyRange : ℚ × JVal
  gfaRange : ℚ × JVal
  leedCertified : Option String
  searchTerm : String
  selectedCity : Option String
deriving DecidableEq, Repr

/-- The initial value of `currentFilters` (also the base state rebuilt by
`resetAllFilters`). -/
def initialFilters : FilterState where
  departments := []
  propertyTypes := []
  yearRange := (1900, 2025)
  energyRange := (0, JVal.inf)
  gfaRange := (0, JVal.inf)
  leedCertified := none
  searchTerm := ""
  selectedCity := none

/-- JS `String.prototype.includes` on character lists: `needle` occurs as a
contiguous run inside `hay`. -/
def listIncludes (hay needle : List Char) : Bool :=
  if needle.isPrefixOf hay then true
  else
    match hay with
    | [] => false
    | _ :: t => listIncludes t needle

/-- JS `hay.includes(needle)` for strings. -/
def strIncludes (hay needle : String) : Bool :=
  listIncludes hay.toList needle.toList

/-- JS truthiness of a `string | null` value: `null` and `""` are falsy. -/
def strTruthy : Option String → Bool
  | none => false
  | some s => !(s == "")

/-- The searchable text of a record, as built by the search-term block of
`applyFilters`: `` `${propertyName} ${departmentName} ${address1} ${city}` ``. -/
def searchableText (b : BuildingData) : String :=
  b.propertyName ++ " " ++ b.departmentName ++ " " ++ b.address1 ++ " " ++ b.city

/-- The `isLeedCertified` flag computed inside `applyFilters`: trim and
lowercase `leedCertified`, then treat it as certified unless it is empty,
`"no"` or `"not applicable"`. -/
def isLeedCertifiedFlag (b : BuildingData) : Bool :=
  let leedStatus := b.leedCertified.trim.toLower
  !(leedStatus == "") && !(leedStatus == "no") && !(leedStatus == "not applicable")

/-- The per-record body of `applyFilters`' filter callback, mirroring its
sequence of early `return false` checks. -/
def passesFilters (fs : FilterState) (item : BuildingData) : Bool :=
  if decide (0 < fs.departments.length) && !(fs.departments.contains item.departmentName) then
    false
  else if decide (0 < fs.propertyTypes.length)
      && !(fs.propertyTypes.contains item.primaryPropertyType) then
    false
  else if decide (item.yearBuilt < fs.yearRange.1) || decide (fs.yearRange.2 < item.yearBuilt) then
    false
  else if decide (item.siteEnergyUseKbtu < fs.energyRange.1)
      || JVal.numGt item.siteEnergyUseKbtu fs.energyRange.2 then
    false
  else if decide (item.propertyGFA < fs.gfaRange.1)
      || JVal.numGt item.propertyGFA fs.gfaRange.2 then
    false
  else if strTruthy fs.leedCertified
      && ((fs.leedCertified.getD "" == "certified" && !(isLeedCertifiedFlag item))
        || (fs.leedCertified.getD "" == "not-certified" && isLeedCertifiedFlag item)) then
    false
  else if !(fs.searchTerm == "")
      && !(strIncludes (searchableText item).toLower fs.searchTerm.toLower) then
    false
  else if strTruthy fs.selectedCity && !(item.city == fs.selectedCity.getD "") then
    false
  else
    true

/-- `applyFilters(data)` from `src/index.tsx`, with the module-level
`currentFilters` made an explicit argument. -/
def applyFilters (fs : FilterState) (data : List BuildingData) : List BuildingData :=
  data.filter (passesFilters fs)

/-- Department predicate of the spec: an empty selection means "no
restriction", otherwise the record's department name must be selected. -/
def deptOk (fs : FilterState) (b : BuildingData) : Bool :=
  fs.departments.isEmpty || fs.departments.contains b.departmentName

/-- Property-type predicate: empty selection means "no restriction". -/
def typeOk (fs : FilterState) (b : BuildingData) : Bool :=
  fs.propertyTypes.isEmpty || fs.propertyTypes.contains b.primaryPropertyType

/-- Inclusive year-range predicate. -/
def yearOk (fs : FilterState) (b : BuildingData) : Bool :=
  decide (fs.yearRange.1 ≤ b.yearBuilt ∧ b.yearBuilt ≤ fs.yearRange.2)

/-- Inclusive energy-range predicate (upper bound may be `Infinity`). -/
def energyOk (fs : FilterState) (b : BuildingData) : Bool :=
  decide (fs.energyRange.1 ≤ b.siteEnergyUseKbtu)
    && JVal.numLe b.siteEnergyUseKbtu fs.energyRange.2

/-- Inclusive gross-floor-area range predicate. -/
def gfaOk (fs : FilterState) (b : BuildingData) : Bool :=
  decide (fs.gfaRange.1 ≤ b.propertyGFA) && JVal.numLe b.propertyGFA fs.gfaRange.2

/-- LEED tri-state predicate: inactive filter passes everything, `"certified"`
requires the certified flag, `"not-certified"` requires its absence. -/
def leedOk (fs : FilterState) (b : BuildingData) : Bool :=
  !(strTruthy fs.leedCertified)
    || ((!(fs.leedCertified.getD "" == "certified") || isLeedCertifiedFlag b)
      && (!(fs.leedCertified.getD "" == "not-certified") || !(isLeedCertifiedFlag b)))

/-- Case-insensitive substring search over name/department/address/city. -/
def searchOk (fs : FilterState) (b : BuildingData) : Bool :=
  (fs.searchTerm == "") || strIncludes (searchableText b).toLower fs.searchTerm.toLower

/-- Exact-city predicate: inactive when `selectedCity` is null or empty. -/
def cityOk (fs : FilterState) (b : BuildingData) : Bool :=
  !(strTruthy fs.selectedCity) || (b.city == fs.selectedCity.getD "")

theorem ifChain8 : ∀ c1 c2 c3 c4 c5 c6 c7 c8 : Bool,
    (if c1 then false else if c2 then false else if c3 then false else if c4 then false
      else if c5 then false else if c6 then false else if c7 then false else if c8 then false
      else true)
      = (!c1 && !c2 && !c3 && !c4 && !c5 && !c6 && !c7 && !c8) := by
  decide

theorem passesFilters_iff (fs : FilterState) (b : BuildingData) :
    passesFilters fs b = true ↔
      deptOk fs b = true ∧ typeOk fs b = true ∧ yearOk fs b = true ∧ energyOk fs b = true ∧
        gfaOk fs b = true ∧ leedOk fs b = true ∧ searchOk fs b = true ∧ cityOk fs b = true := by
  rw [passesFilters, ifChain8]
  cases hd : fs.departments with
  | nil =>
    cases he : fs.energyRange.2 <;> cases hg : fs.gfaRange.2 <;>
      simp [deptOk, typeOk, yearOk, energyOk, gfaOk, leedOk, searchOk, cityOk,
        JVal.numGt, JVal.numLe, List.isEmpty_iff, not_lt, hd, he, hg, and_assoc]
  | cons a l =>
    cases he : fs.energyRange.2 <;> cases hg : fs.gfaRange.2 <;>
      simp [deptOk, typeOk, yearOk, energyOk, gfaOk, leedOk, searchOk, cityOk,
        JVal.numGt, JVal.numLe, List.isEmpty_iff, not_lt, hd, he, hg, and_assoc]

/-- **C1.** For every input record array and every `FilterState`, `applyFilters`
returns a subsequence of the input (order preserved, no duplication), and a
record is in the output iff it is in the input and satisfies every active
predicate — department membership, property-type membership, inclusive year
range, inclusive energy range, inclusive GFA range, LEED tri-state match,
case-insensitive substring search, exact city match — AND-combined. -/
theorem applyFilters_stable_exact (fs : FilterState) (data : List BuildingData) :
    (applyFilters fs data).Sublist data ∧
      ∀ x, x ∈ applyFilters fs data ↔
        x ∈ data ∧ deptOk fs x = true ∧ typeOk fs x = true ∧ yearOk fs x = true ∧
          energyOk fs x = true ∧ gfaOk fs x = true ∧ leedOk fs x = true ∧
          searchOk fs x = true ∧ cityOk fs x = true := by
  refine ⟨List.filter_sublist _, fun x => ?_⟩
  rw [applyFilters, List.mem_filter, passesFilters_iff]

/-- **C2.** An empty `FilterState` — no department / property-type selections,
ranges wide enough for every record, LEED filter null, empty search term, no
selected city — makes `applyFilters` the identity. -/
theorem applyFilters_empty_state_id (fs : FilterState) (data : List BuildingData)
    (hdep : fs.departments = []) (htyp : fs.propertyTypes = [])
    (hleed : fs.leedCertified = none) (hsearch : fs.searchTerm = "")
    (hcity : fs.selectedCity = none)
    (hwide : ∀ b ∈ data,
      fs.yearRange.1 ≤ b.yearBuilt ∧ b.yearBuilt ≤ fs.yearRange.2 ∧
        fs.energyRange.1 ≤ b.siteEnergyUseKbtu ∧
        JVal.numLe b.siteEnergyUseKbtu fs.energyRange.2 = true ∧
        fs.gfaRange.1 ≤ b.propertyGFA ∧ JVal.numLe b.propertyGFA fs.gfaRange.2 = true) :
    applyFilters fs data = data := by
  rw [applyFilters, List.filter_eq_self]
  intro b hb
  rw [passesFilters_iff]
  obtain ⟨h1, h2, h3, h4, h5, h6⟩ := hwide b hb
  refine ⟨?_, ?_, ?_, ?_, ?_, ?_, ?_, ?_⟩ <;>
    simp [deptOk, typeOk, yearOk, energyOk, gfaOk, leedOk, searchOk, cityOk, strTruthy,
      hdep, htyp, hleed, hsearch, hcity, h1, h2, h3, h4, h5, h6]

/-- A sample record inside all of `initialFilters`' ranges. -/
def sampleRecord : BuildingData :=
  { emptyRecord with
      propertyId := "P-1"
      propertyName := "State Library"
      departmentName := "General Services"
      city := "Sacramento"
      yearBuilt := 1950
      siteEnergyUseKbtu := 5000
      propertyGFA := 12000 }

/-- Witness for C2: a concrete empty filter state and one-record dataset. -/
theorem applyFilters_empty_state_id_witness :
    applyFilters initialFilters [sampleRecord] = [sampleRecord] :=
  applyFilters_empty_state_id initialFilters [sampleRecord] rfl rfl rfl rfl rfl (by decide)

/-!
## Numeric histograms

`renderWaterUsageCharts` and `renderEfficiencyAnalysis` both build a
`Record<string, number>` keyed by the bin label
`` `${binStart}-${binStart + binSize - 1}` `` where
`binStart = Math.floor(value / binSize) * binSize`.  Since `binSize` is fixed
per histogram and number formatting is injective, the label determines and is
determined by `binStart`; the accumulator is therefore keyed here by
`binStart : ℤ` and labels are rendered afterwards. -/

/-- Increment the count of key `k` in an insertion-ordered association list
(JS `bins[label] = (bins[label] || 0) + 1`). -/
def bumpBin : List (ℤ × ℕ) → ℤ → List (ℤ × ℕ)
  | [], k => [(k, 1)]
  | (k0, c) :: rest, k =>
      if k = k0 then (k0, c + 1) :: rest else (k0, c) :: bumpBin rest k

/-- Accumulate every value into its bin `⌊v / binSize⌋ * binSize`. -/
def binCounts (binSize : ℤ) (vals : List ℚ) : List (ℤ × ℕ) :=
  vals.foldl (fun acc v => bumpBin acc (⌊v / (binSize : ℚ)⌋ * binSize)) []

/-- `Math.ceil(max / targetBins) || fallback`: the fallback applies when the
ceiling is `0` (falsy). -/
def binSizeFor (vals : List ℚ) (targetBins : ℚ) (fallback : ℤ) : ℤ :=
  match vals with
  | [] => fallback
  | v :: vs =>
      let m := vs.foldl max v
      let c := ⌈m / targetBins⌉
      if c = 0 then fallback else c

/-- `Object.entries(bins).sort(...)` by the numeric lower bound parsed back
from the label. -/
def sortBins (bins : List (ℤ × ℕ)) : List (ℤ × ℕ) :=
  bins.mergeSort (fun a b => a.1 ≤ b.1)

/-- Qualifying predicate of the water-usage histogram: `d.waterUseKgal > 0`. -/
def waterQual (d : BuildingData) : Bool :=
  decide (0 < d.waterUseKgal)

/-- Qualifying predicate of the energy-intensity histogram:
`d.siteEnergyUsedPerSqrFt > 0 && d.siteEnergyUsedPerSqrFt < 1000 && d.propertyGFA > 100`. -/
def effQual (d : BuildingData) : Bool :=
  decide (0 < d.siteEnergyUsedPerSqrFt) && decide (d.siteEnergyUsedPerSqrFt < 1000)
    && decide (100 < d.propertyGFA)

/-- The water-usage histogram of `renderWaterUsageCharts`: positive values
binned with `binSize = Math.ceil(max / 10) || 100`, bins sorted ascending,
labelled `` `${binStart}-${binEnd} kgal` ``; a single `"No Water Usage Data"`
bin with count `0` when no positive value exists. -/
def waterUsageBins (data : List BuildingData) : List (String × ℕ) :=
  let pos := (data.filter waterQual).map (fun d => d.waterUseKgal)
  if pos.isEmpty then [("No Water Usage Data", 0)]
  else
    let binSize := binSizeFor pos 10 100
    (sortBins (binCounts binSize pos)).map
      (fun p => (toString p.1 ++ "-" ++ toString (p.1 + binSize - 1) ++ " kgal", p.2))

/-- The energy-intensity histogram of `renderEfficiencyAnalysis`: in-range
intensities binned with `binSize = Math.ceil(max / 15) || 10`; the bins object
stays empty (no "No Data" bin) when no qualifying value exists, and is never
sorted. -/
def energyIntensityBins (data : List BuildingData) : List (String × ℕ) :=
  let vals := (data.filter effQual).map (fun d => d.siteEnergyUsedPerSqrFt)
  if vals.isEmpty then []
  else
    let binSize := binSizeFor vals 15 10
    (binCounts binSize vals).map
      (fun p => (toString p.1 ++ "-" ++ toString (p.1 + binSize - 1), p.2))

/-- Total count over a bin list. -/
def binTotal {α : Type} (bins : List (α × ℕ)) : ℕ :=
  (bins.map Prod.snd).sum

theorem binTotal_bumpBin (acc : List (ℤ × ℕ)) (k : ℤ) :
    binTotal (bumpBin acc k) = binTotal acc + 1 := by
  induction acc with
  | nil => simp [bumpBin, binTotal]
  | cons p rest ih =>
      obtain ⟨k0, c⟩ := p
      simp only [binTotal, List.map_cons, List.sum_cons] at ih ⊢
      by_cases h : k = k0
      · simp only [bumpBin, if_pos h, List.map_cons, List.sum_cons]
        omega
      · simp only [bumpBin, if_neg h, List.map_cons, List.sum_cons, ih]
        omega

theorem binTotal_binCounts_aux (binSize : ℤ) (vals : List ℚ) (init : List (ℤ × ℕ)) :
    binTotal (vals.foldl (fun acc v => bumpBin acc (⌊v / (binSize : ℚ)⌋ * binSize)) init)
      = binTotal init + vals.length := by
  induction vals generalizing init with
  | nil => simp
  | cons v vs ih =>
      simp only [List.foldl_cons, List.length_cons, ih, binTotal_bumpBin]
      omega

theorem binTotal_binCounts (binSize : ℤ) (vals : List ℚ) :
    binTotal (binCounts binSize vals) = vals.length := by
  simpa [binCounts, binTotal] using binTotal_binCounts_aux binSize vals []

theorem binTotal_sortBins (bins : List (ℤ × ℕ)) :
    binTotal (sortBins bins) = binTotal bins := by
  exact List.Perm.sum_eq (List.Perm.map Prod.snd (List.mergeSort_perm bins _))

theorem binTotal_map_snd {α β : Type} (bins : List (α × ℕ)) (f : α × ℕ → β × ℕ)
    (hf : ∀ p, (f p).2 = p.2) :
    binTotal (bins.map f) = binTotal bins := by
  induction bins with
  | nil => rfl
  | cons p rest ih =>
      simp only [binTotal, List.map_cons, List.sum_cons] at ih ⊢
      rw [hf, ih]

/-- **C3.** Every qualifying value lands in exactly one bin: for both numeric
histograms (water usage, energy intensity) the sum of all bin counts equals
the number of qualifying input records. -/
theorem histogram_counts_complete (data : List BuildingData) :
    binTotal (waterUsageBins data) = (data.filter waterQual).length ∧
      binTotal (energyIntensityBins data) = (data.filter effQual).length := by
  constructor
  · by_cases h : data.filter waterQual = []
    · simp [waterUsageBins, h, binTotal]
    · have hne : ((data.filter waterQual).map (fun d => d.waterUseKgal)).isEmpty = false := by
        simp [List.isEmpty_iff, h]
      simp only [waterUsageBins, hne, Bool.false_eq_true, if_false]
      refine Eq.trans (binTotal_map_snd _ _ (fun p => rfl)) ?_
      rw [binTotal_sortBins, binTotal_binCounts]
      simp
  · by_cases h : data.filter effQual = []
    · simp [energyIntensityBins, h, binTotal]
    · have hne : ((data.filter effQual).map (fun d => d.siteEnergyUsedPerSqrFt)).isEmpty = false := by
        simp [List.isEmpty_iff, h]
      simp only [energyIntensityBins, hne, Bool.false_eq_true, if_false]
      refine Eq.trans (binTotal_map_snd _ _ (fun p => rfl)) ?_
      rw [binTotal_binCounts]
      simp

/-- **C8 counterexample.** On an input with no qualifying values the
energy-intensity histogram of `renderEfficiencyAnalysis` yields an *empty*
bin list — not the single "No Data" bin with count 0 the claim requires of
every histogram computation (its `if` has no `else` branch). -/
theorem energyIntensityBins_empty_no_placeholder :
    energyIntensityBins [] = [] ∧ (energyIntensityBins []).length ≠ 1 := by
  constructor <;> simp [energyIntensityBins]

/-- **C8 (amended).** When no qualifying value exists, the water-usage
histogram emits the single placeholder bin `("No Water Usage Data", 0)`, but
the energy-intensity histogram emits an empty bin list instead. -/
theorem histogram_no_data_placeholder (data : List BuildingData) :
    (data.filter waterQual = [] → waterUsageBins data = [("No Water Usage Data", 0)]) ∧
      (data.filter effQual = [] → energyIntensityBins data = []) := by
  constructor <;> intro h
  · simp [waterUsageBins, h]
  · simp [energyIntensityBins, h]

/-- Witness for C8 (amended): the empty dataset has no qualifying values. -/
theorem histogram_no_data_placeholder_witness :
    waterUsageBins [] = [("No Water Usage Data", 0)] ∧ energyIntensityBins [] = [] :=
  ⟨(histogram_no_data_placeholder []).1 rfl, (histogram_no_data_placeholder []).2 rfl⟩

/-- `handleDepartmentClick`: toggle `departmentName`'s membership in the
department selection (remove every occurrence if present, append otherwise). -/
def handleDepartmentClick (fs : FilterState) (departmentName : String) : FilterState :=
  if fs.departments.contains departmentName then
    { fs with departments := fs.departments.filter (fun d => !(d == departmentName)) }
  else
    { fs with departments := fs.departments ++ [departmentName] }

/-- **C7.** Toggling a department on and then off (two successive department
clicks with the same label, starting with the label unselected) restores
`FilterState.departments`, hence the whole `FilterState`, hence the
recomputed active set. -/
theorem department_toggle_roundtrip (fs : FilterState) (name : String)
    (data : List BuildingData) (h : name ∉ fs.departments) :
    handleDepartmentClick (handleDepartmentClick fs name) name = fs ∧
      applyFilters (handleDepartmentClick (handleDepartmentClick fs name) name) data
        = applyFilters fs data := by
  have h1 : fs.departments.contains name = false := by
    simpa using h
  have hstep : handleDepartmentClick fs name
      = { fs with departments := fs.departments ++ [name] } := by
    rw [handleDepartmentClick, if_neg]
    simpa using h
  have hfilter : (fs.departments ++ [name]).filter (fun d => !(d == name))
      = fs.departments := by
    rw [List.filter_append]
    have hl : fs.departments.filter (fun d => !(d == name)) = fs.departments :=
      List.filter_eq_self.mpr (fun a ha => by
        simp only [Bool.not_eq_true', beq_eq_false_iff_ne, ne_eq]
        intro e
        exact h (e ▸ ha))
    simp [hl]
  have hback : handleDepartmentClick { fs with departments := fs.departments ++ [name] } name
      = fs := by
    rw [handleDepartmentClick, if_pos]
    · simp only [hfilter]
    · simp
  constructor
  · rw [hstep, hback]
  · rw [hstep, hback]

/-- Witness for C7 at a concrete state, department name and dataset. -/
theorem department_toggle_roundtrip_witness :
    handleDepartmentClick (handleDepartmentClick initialFilters "General Services")
        "General Services" = initialFilters ∧
      applyFilters (handleDepartmentClick (handleDepartmentClick initialFilters
          "General Services") "General Services") [sampleRecord]
        = applyFilters initialFilters [sampleRecord] :=
  department_toggle_roundtrip initialFilters "General Services" [sampleRecord] (by decide)

/-- `handleGreenPowerBinClick`: the `switch` on the clicked bin label only
implements `'0% Usage'` and `'1-25%'`; every other label falls through. -/
def handleGreenPowerBinClick (fs : FilterState) (binLabel : String) : FilterState :=
  if binLabel == "0% Usage" then { fs with energyRange := (0, JVal.num 0) }
  else if binLabel == "1-25%" then { fs with energyRange := (1, JVal.num 25) }
  else fs

/-- **C9.** `handleGreenPowerBinClick` modifies only `energyRange`:
`'0% Usage'` sets it to `[0, 0]`, `'1-25%'` sets it to `[1, 25]`, every other
label leaves the state unchanged, and no other field is ever modified. -/
theorem greenPowerBinClick_frame (fs : FilterState) (binLabel : String) :
    (handleGreenPowerBinClick fs binLabel).departments = fs.departments ∧
      (handleGreenPowerBinClick fs binLabel).propertyTypes = fs.propertyTypes ∧
      (handleGreenPowerBinClick fs binLabel).yearRange = fs.yearRange ∧
      (handleGreenPowerBinClick fs binLabel).gfaRange = fs.gfaRange ∧
      (handleGreenPowerBinClick fs binLabel).leedCertified = fs.leedCertified ∧
      (handleGreenPowerBinClick fs binLabel).searchTerm = fs.searchTerm ∧
      (handleGreenPowerBinClick fs binLabel).selectedCity = fs.selectedCity ∧
      (handleGreenPowerBinClick fs binLabel).energyRange
        = (if binLabel = "0% Usage" then (0, JVal.num 0)
           else if binLabel = "1-25%" then ((1 : ℚ), JVal.num 25)
           else fs.energyRange) ∧
      ((binLabel ≠ "0% Usage" ∧ binLabel ≠ "1-25%")
        → handleGreenPowerBinClick fs binLabel = fs) := by
  by_cases h1 : binLabel = "0% Usage" <;> by_cases h2 : binLabel = "1-25%" <;>
    simp [handleGreenPowerBinClick, h1, h2]

/-- `filterToCategory(label, chartId)` from the drill-down panel: dispatch on
substrings of the chart id and replace the matching filter (notification side
effects omitted; the `'1-25%'` green-power case only notifies and changes no
filter). -/
def filterToCategory (fs : FilterState) (label chartId : String) : FilterState :=
  if strIncludes chartId "dept" || strIncludes chartId "Department" then
    { fs with departments := [label] }
  else if strIncludes chartId "type" || strIncludes chartId "propertyTypes" then
    { fs with propertyTypes := [label] }
  else if strIncludes chartId "city" || strIncludes chartId "cityDistribution" then
    { fs with selectedCity := some label }
  else if strIncludes chartId "buildingAge" then
    if label == "Pre-1900" then { fs with yearRange := (1800, 1899) }
    else if label == "1900-1919" then { fs with yearRange := (1900, 1919) }
    else if label == "1920-1939" then { fs with yearRange := (1920, 1939) }
    else if label == "1940-1959" then { fs with yearRange := (1940, 1959) }
    else if label == "1960-1979" then { fs with yearRange := (1960, 1979) }
    else if label == "1980-1999" then { fs with yearRange := (1980, 1999) }
    else if label == "2000-Present" then { fs with yearRange := (2000, 2025) }
    else if label == "Unknown/Pre-1899" then { fs with yearRange := (0, 1899) }
    else fs
  else if strIncludes chartId "greenPower" then
    if label == "0% Usage" then { fs with energyRange := (0, JVal.num 0) }
    else fs
  else fs

/-- **C6.** Clicking the city `"Sacramento"` on the geography chart
(`filterToCategory` with a `cityDistribution` chart id) sets
`selectedCity = "Sacramento"`, and the recomputed active set contains exactly
the records with that city among those passing the other active predicates. -/
theorem city_click_selects_sacramento (fs : FilterState) (data : List BuildingData) :
    (filterToCategory fs "Sacramento" "cityDistribution").selectedCity = some "Sacramento" ∧
      ∀ x, x ∈ applyFilters (filterToCategory fs "Sacramento" "cityDistribution") data ↔
        x ∈ data ∧ deptOk fs x = true ∧ typeOk fs x = true ∧ yearOk fs x = true ∧
          energyOk fs x = true ∧ gfaOk fs x = true ∧ leedOk fs x = true ∧
          searchOk fs x = true ∧ x.city = "Sacramento" := by
  have e1 : strIncludes "cityDistribution" "dept" = false := by decide
  have e2 : strIncludes "cityDistribution" "Department" = false := by decide
  have e3 : strIncludes "cityDistribution" "type" = false := by decide
  have e4 : strIncludes "cityDistribution" "propertyTypes" = false := by decide
  have e5 : strIncludes "cityDistribution" "city" = true := by decide
  have hfs : filterToCategory fs "Sacramento" "cityDistribution"
      = { fs with selectedCity := some "Sacramento" } := by
    rw [filterToCategory]
    simp [e1, e2, e3, e4, e5]
  rw [hfs]
  refine ⟨rfl, fun x => ?_⟩
  rw [applyFilters, List.mem_filter, passesFilters_iff]
  have hcity : cityOk { fs with selectedCity := some "Sacramento" } x
      = (x.city == "Sacramento") := by
    simp [cityOk, strTruthy]
  have hd : deptOk { fs with selectedCity := some "Sacramento" } x = deptOk fs x := rfl
  have ht : typeOk { fs with selectedCity := some "Sacramento" } x = typeOk fs x := rfl
  have hy : yearOk { fs with selectedCity := some "Sacramento" } x = yearOk fs x := rfl
  have he : energyOk { fs with selectedCity := some "Sacramento" } x = energyOk fs x := rfl
  have hg : gfaOk { fs with selectedCity := some "Sacramento" } x = gfaOk fs x := rfl
  have hl : leedOk { fs with selectedCity := some "Sacramento" } x = leedOk fs x := rfl
  have hs : searchOk { fs with selectedCity := some "Sacramento" } x = searchOk fs x := rfl
  rw [hcity, hd, ht, hy, he, hg, hl, hs]
  simp

/-- Kind of a `showNotification` toast. -/
inductive NoteKind where
  | success
  | warning
  | info
deriving DecidableEq, Repr

/-- A user-visible notification (`showNotification(message, type)`). -/
structure Notification where
  msg : String
  kind : NoteKind
deriving DecidableEq, Repr

/-- `addToComparison(propertyId)`: look the building up in the full dataset,
append it to the comparison list unless an entry with the same property id is
already there (`findIndex !== -1`, modelled by `List.any`), in which case the
list is unchanged and a warning notification is shown.  Returns the new
comparison list and the notification, if any. -/
def addToComparison (all sel : List BuildingData) (propertyId : String) :
    List BuildingData × Option Notification :=
  match all.find? (fun b => b.propertyId == propertyId) with
  | none => (sel, none)
  | some building =>
      if sel.any (fun item => item.propertyId == propertyId) then
        (sel, some ⟨"\"" ++ building.propertyName ++ "\" is already in comparison",
          NoteKind.warning⟩)
      else
        (sel ++ [building], some ⟨"Added \"" ++ building.propertyName ++ "\" to comparison",
          NoteKind.success⟩)

/-- **C5.** The comparison add operation is idempotent: starting from a list
with no entry for an existing property id, adding twice yields exactly one
entry for that id; the second call leaves the list unchanged and produces a
warning notification. -/
theorem addToComparison_idempotent (all sel : List BuildingData) (pid : String)
    (hex : ∃ b ∈ all, b.propertyId = pid)
    (hnew : ∀ item ∈ sel, item.propertyId ≠ pid) :
    (addToComparison all (addToComparison all sel pid).1 pid).1
        = (addToComparison all sel pid).1 ∧
      ((addToComparison all (addToComparison all sel pid).1 pid).1.countP
        (fun b => b.propertyId == pid)) = 1 ∧
      ∃ m, (addToComparison all (addToComparison all sel pid).1 pid).2
        = some ⟨m, NoteKind.warning⟩ := by
  obtain ⟨b0, hb0, hpid0⟩ := hex
  have hfind : (all.find? (fun b => b.propertyId == pid)).isSome := by
    rw [List.find?_isSome]
    exact ⟨b0, hb0, by simp [hpid0]⟩
  obtain ⟨bb, hbb⟩ := Option.isSome_iff_exists.mp hfind
  have hbbpid : bb.propertyId = pid := by
    simpa using List.find?_some hbb
  have hany1 : sel.any (fun item => item.propertyId == pid) = false := by
    rw [List.any_eq_false]
    intro x hx
    simpa using hnew x hx
  have hfst : (addToComparison all sel pid).1 = sel ++ [bb] := by
    rw [addToComparison, hbb]
    simp [hany1]
  have hany2 : ((sel ++ [bb]).any (fun item => item.propertyId == pid)) = true := by
    simp [hbbpid]
  have hsecond : addToComparison all (sel ++ [bb]) pid
      = (sel ++ [bb], some ⟨"\"" ++ bb.propertyName ++ "\" is already in comparison",
          NoteKind.warning⟩) := by
    rw [addToComparison, hbb]
    simp [hany2]
  have hcount0 : sel.countP (fun b => b.propertyId == pid) = 0 := by
    rw [List.countP_eq_zero]
    intro x hx
    simpa using hnew x hx
  refine ⟨?_, ?_, ?_⟩
  · rw [hfst, hsecond]
  · rw [hfst, hsecond]
    simp [List.countP_append, hcount0, List.countP_cons, hbbpid]
  · rw [hfst, hsecond]
    exact ⟨_, rfl⟩

/-- Witness for C5: adding the sample record twice by its id `"P-1"`. -/
theorem addToComparison_idempotent_witness :
    (addToComparison [sampleRecord] (addToComparison [sampleRecord] [] "P-1").1 "P-1").1
        = (addToComparison [sampleRecord] [] "P-1").1 ∧
      ((addToComparison [sampleRecord] (addToComparison [sampleRecord] [] "P-1").1 "P-1").1.countP
        (fun b => b.propertyId == "P-1")) = 1 ∧
      ∃ m, (addToComparison [sampleRecord] (addToComparison [sampleRecord] [] "P-1").1 "P-1").2
        = some ⟨m, NoteKind.warning⟩ :=
  addToComparison_idempotent [sampleRecord] [] "P-1" ⟨sampleRecord, by simp, rfl⟩ (by simp)

/-- Outcome of an export action: a produced download, a warning toast with no
file, or an uncaught exception (no file *and* no notification). -/
inductive ExportOutcome where
  | download (filename : String) (content : String)
  | warned (msg : String)
  | crash
deriving DecidableEq, Repr

/-- `Object.keys(record)` for a `BuildingData` value: the field names in
declaration order. -/
def csvHeaders : String :=
  String.intercalate ","
    ["department", "departmentName", "propertyId", "propertyName", "yearEnding",
     "address1", "city", "stateProvince", "postalCode", "propertyGFA",
     "primaryPropertyType", "yearBuilt", "electricityRenewableUsedOnsite",
     "electricityGridPurchase", "naturalGasUseTherms", "propaneUseKbtu",
     "waterUseKgal", "percentGreenPower", "greenPowerKWh", "siteEnergyUseKbtu",
     "leedCertified", "location", "totalElectricityUseKWh", "elecUsedPerSqrFt",
     "siteEnergyUsedPerSqrFt", "waterUsedPerSqrFt", "hasRenewable"]

/-- CSV rendering of a string value: quoted iff it contains a comma. -/
def csvString (s : String) : String :=
  if s.contains ',' then "\"" ++ s ++ "\"" else s

/-- One CSV row: `Object.values(item)` joined by commas, quoting string values
that contain a comma. -/
def csvRow (b : BuildingData) : String :=
  String.intercalate ","
    [csvString b.department, csvString b.departmentName, csvString b.propertyId,
     csvString b.propertyName, csvString b.yearEnding, csvString b.address1,
     csvString b.city, csvString b.stateProvince, csvString b.postalCode,
     toString b.propertyGFA, csvString b.primaryPropertyType, toString b.yearBuilt,
     toString b.electricityRenewableUsedOnsite, toString b.electricityGridPurchase,
     toString b.naturalGasUseTherms, toString b.propaneUseKbtu, toString b.waterUseKgal,
     toString b.percentGreenPower, toString b.greenPowerKWh, toString b.siteEnergyUseKbtu,
     csvString b.leedCertified, csvString b.location, toString b.totalElectricityUseKWh,
     toString b.elecUsedPerSqrFt, toString b.siteEnergyUsedPerSqrFt,
     toString b.waterUsedPerSqrFt, toString b.hasRenewable]

/-- `[headers, ...rows].join('\n')`. -/
def csvContent (data : List BuildingData) : String :=
  String.intercalate "\n" (csvHeaders :: data.map csvRow)

/-- The CSV branch of `exportFilteredData('csv')`.  It derives the header row
from `Object.keys(data[0])` with **no emptiness guard**: on an empty array
`data[0]` is `undefined` and `Object.keys(undefined)` throws a `TypeError`,
so the call crashes with no notification and no download. -/
def exportFilteredDataCSV (data : List BuildingData) : ExportOutcome :=
  match data with
  | [] => ExportOutcome.crash
  | _ :: _ => ExportOutcome.download "california_buildings_filtered.csv" (csvContent data)

/-- `label.replace(/[^a-zA-Z0-9]/g, '_')`. -/
def sanitizeLabel (label : String) : String :=
  String.mk (label.toList.map (fun c => if c.isAlphanum then c else '_'))

/-- `exportBuildingsList(label, chartId)` after `getRelatedBuildings` has
produced the `buildings` array: this exporter *does* guard the empty case with
a `'No buildings to export'` warning and an early return. -/
def exportBuildingsListCSV (buildings : List BuildingData) (label : String) : ExportOutcome :=
  if buildings.isEmpty then ExportOutcome.warned "No buildings to export"
  else
    ExportOutcome.download ("buildings_" ++ sanitizeLabel label ++ ".csv")
      (csvContent buildings)

/-- **C4 (code bug).** Exporting an empty dataset: `exportBuildingsList` fails
gracefully with the warning the claim describes, but `exportFilteredData` has
no emptiness guard — it throws (`Object.keys(data[0])` on `undefined`) with
*no* user-visible warning, contradicting the claimed graceful failure. -/
theorem exportFilteredData_empty_crash :
    exportFilteredDataCSV [] = ExportOutcome.crash ∧
      exportBuildingsListCSV [] "Sacramento" = ExportOutcome.warned "No buildings to export" :=
  ⟨rfl, rfl⟩

/-- `resetAllFilters`: rebuild the default `FilterState`, then — if any
`yearBuilt` lies strictly between 1800 and 2030 — narrow `yearRange` to the
`[Math.min(...), Math.max(...)]` of exactly those values. -/
def resetAllFilters (all : List BuildingData) : FilterState :=
  match (all.map (fun b => b.yearBuilt)).filter
      (fun y => decide (1800 < y) && decide (y < 2030)) with
  | [] => initialFilters
  | y :: ys => { initialFilters with yearRange := (ys.foldl min y, ys.foldl max y) }

theorem foldl_min_mem : ∀ (ys : List ℚ) (y : ℚ), ys.foldl min y ∈ y :: ys := by
  intro ys
  induction ys with
  | nil => intro y; simp
  | cons a t ih =>
      intro y
      rw [List.foldl_cons]
      rcases List.mem_cons.mp (ih (min y a)) with h1 | h1
      · rw [h1]
        rcases min_choice y a with hm | hm <;> simp [hm]
      · exact List.mem_cons_of_mem _ (List.mem_cons_of_mem _ h1)

theorem foldl_min_le : ∀ (ys : List ℚ) (y z : ℚ), z ∈ y :: ys → ys.foldl min y ≤ z := by
  intro ys
  induction ys with
  | nil =>
      intro y z hz
      simp only [List.mem_singleton] at hz
      simp [hz]
  | cons a t ih =>
      intro y z hz
      rw [List.foldl_cons]
      rcases List.mem_cons.mp hz with h1 | h1
      · subst h1
        exact le_trans (ih (min z a) (min z a) (List.mem_cons_self _ _)) (min_le_left z a)
      · rcases List.mem_cons.mp h1 with h2 | h2
        · subst h2
          exact le_trans (ih (min y z) (min y z) (List.mem_cons_self _ _)) (min_le_right y z)
        · exact ih (min y a) z (List.mem_cons_of_mem _ h2)

theorem foldl_max_mem : ∀ (ys : List ℚ) (y : ℚ), ys.foldl max y ∈ y :: ys := by
  intro ys
  induction ys with
  | nil => intro y; simp
  | cons a t ih =>
      intro y
      rw [List.foldl_cons]
      rcases List.mem_cons.mp (ih (max y a)) with h1 | h1
      · rw [h1]
        rcases max_choice y a with hm | hm <;> simp [hm]
      · exact List.mem_cons_of_mem _ (List.mem_cons_of_mem _ h1)

theorem le_foldl_max : ∀ (ys : List ℚ) (y z : ℚ), z ∈ y :: ys → z ≤ ys.foldl max y := by
  intro ys
  induction ys with
  | nil =>
      intro y z hz
      simp only [List.mem_singleton] at hz
      simp [hz]
  | cons a t ih =>
      intro y z hz
      rw [List.foldl_cons]
      rcases List.mem_cons.mp hz with h1 | h1
      · subst h1
        exact le_trans (le_max_left z a) (ih (max z a) (max z a) (List.mem_cons_self _ _))
      · rcases List.mem_cons.mp h1 with h2 | h2
        · subst h2
          exact le_trans (le_max_right y z) (ih (max y z) (max y z) (List.mem_cons_self _ _))
        · exact ih (max y a) z (List.mem_cons_of_mem _ h2)

/-- **C10.** After `resetAllFilters` on a dataset with at least one
`yearBuilt` strictly between 1800 and 2030, `yearRange` becomes the
`[min, max]` of exactly those in-window values; every record whose
`yearBuilt` is `0` (the coercion default) is therefore excluded from the
recomputed filtered set — resetting all filters does not restore the full
dataset. -/
theorem resetAllFilters_excludes_year_zero (all : List BuildingData)
    (hex : ∃ b ∈ all, 1800 < b.yearBuilt ∧ b.yearBuilt < 2030) :
    ((resetAllFilters all).yearRange.1
        ∈ (all.map (fun b => b.yearBuilt)).filter
            (fun y => decide (1800 < y) && decide (y < 2030)) ∧
      ∀ y ∈ (all.map (fun b => b.yearBuilt)).filter
          (fun y => decide (1800 < y) && decide (y < 2030)),
        (resetAllFilters all).yearRange.1 ≤ y) ∧
      ((resetAllFilters all).yearRange.2
          ∈ (all.map (fun b => b.yearBuilt)).filter
              (fun y => decide (1800 < y) && decide (y < 2030)) ∧
        ∀ y ∈ (all.map (fun b => b.yearBuilt)).filter
            (fun y => decide (1800 < y) && decide (y < 2030)),
          y ≤ (resetAllFilters all).yearRange.2) ∧
      ∀ b ∈ all, b.yearBuilt = 0 → b ∉ applyFilters (resetAllFilters all) all := by
  obtain ⟨b0, hb0, hlo, hhi⟩ := hex
  have hmem0 : b0.yearBuilt ∈ (all.map (fun b => b.yearBuilt)).filter
      (fun y => decide (1800 < y) && decide (y < 2030)) := by
    rw [List.mem_filter]
    exact ⟨List.mem_map_of_mem _ hb0, by simp [hlo, hhi]⟩
  obtain ⟨y, ys, hcons⟩ : ∃ y ys, (all.map (fun b => b.yearBuilt)).filter
      (fun y => decide (1800 < y) && decide (y < 2030)) = y :: ys := by
    cases hc : (all.map (fun b => b.yearBuilt)).filter
        (fun y => decide (1800 < y) && decide (y < 2030)) with
    | nil => rw [hc] at hmem0; simp at hmem0
    | cons a l => exact ⟨a, l, rfl⟩
  have hfs : resetAllFilters all
      = { initialFilters with yearRange := (ys.foldl min y, ys.foldl max y) } := by
    rw [resetAllFilters, hcons]
  have hmin_mem : (resetAllFilters all).yearRange.1 ∈ y :: ys := by
    rw [hfs]
    exact foldl_min_mem ys y
  have hmax_mem : (resetAllFilters all).yearRange.2 ∈ y :: ys := by
    rw [hfs]
    exact foldl_max_mem ys y
  have hminpos : 1800 < (resetAllFilters all).yearRange.1 := by
    have := hmin_mem
    rw [← hcons, List.mem_filter] at this
    have h2 := this.2
    simp only [Bool.and_eq_true, decide_eq_true_eq] at h2
    exact h2.1
  refine ⟨⟨by rw [hcons]; exact hmin_mem, ?_⟩, ⟨by rw [hcons]; exact hmax_mem, ?_⟩, ?_⟩
  · intro z hz
    rw [hcons] at hz
    rw [hfs]
    exact foldl_min_le ys y z hz
  · intro z hz
    rw [hcons] at hz
    rw [hfs]
    exact le_foldl_max ys y z hz
  · intro b _ hzero hmem
    rw [applyFilters, List.mem_filter, passesFilters_iff] at hmem
    have hyear := hmem.2.2.2.1
    rw [yearOk, decide_eq_true_eq] at hyear
    rw [hzero] at hyear
    exact absurd (lt_of_lt_of_le hminpos hyear.1) (by norm_num)

/-- Witness for C10: one in-window record (1950) and one coerced-to-0 record. -/
theorem resetAllFilters_excludes_year_zero_witness :
    ((resetAllFilters [sampleRecord, emptyRecord]).yearRange.1
        ∈ ([sampleRecord, emptyRecord].map (fun b => b.yearBuilt)).filter
            (fun y => decide (1800 < y) && decide (y < 2030)) ∧
      ∀ y ∈ ([sampleRecord, emptyRecord].map (fun b => b.yearBuilt)).filter
          (fun y => decide (1800 < y) && decide (y < 2030)),
        (resetAllFilters [sampleRecord, emptyRecord]).yearRange.1 ≤ y) ∧
      ((resetAllFilters [sampleRecord, emptyRecord]).yearRange.2
          ∈ ([sampleRecord, emptyRecord].map (fun b => b.yearBuilt)).filter
              (fun y => decide (1800 < y) && decide (y < 2030)) ∧
        ∀ y ∈ ([sampleRecord, emptyRecord].map (fun b => b.yearBuilt)).filter
            (fun y => decide (1800 < y) && decide (y < 2030)),
          y ≤ (resetAllFilters [sampleRecord, emptyRecord]).yearRange.2) ∧
      ∀ b ∈ [sampleRecord, emptyRecord], b.yearBuilt = 0
        → b ∉ applyFilters (resetAllFilters [sampleRecord, emptyRecord])
            [sampleRecord, emptyRecord] :=
  resetAllFilters_excludes_year_zero [sampleRecord, emptyRecord]
    ⟨sampleRecord, by simp, by norm_num [sampleRecord], by norm_num [sampleRecord]⟩
